import Mathlib

/-!
Verification development for the fingerflow repository: a shallow embedding
of the VerifyNet weight-conversion script (scripts/convert_verify_net.py),
the ONNX export declarations (src/fingerflow_torch/export.py), the backend
registry (src/fingerflow/__init__.py) and the two batched matcher entry
points, together with theorems settling the specification claims.

Numeric array values are modelled as rationals; a NumPy ndarray is a shape
together with a total indexing function from multi-indices to values.
-/

namespace Fingerflow

/-- Shallow embedding of a NumPy ndarray (and equally of a torch tensor,
since torch.from_numpy preserves shape and values): a shape list together
with a total indexing function from multi-indices to rational values.
Indices outside the shape are irrelevant to the embedded program. -/
structure Tensor where
  shape : List Nat
  data : List Nat → ℚ

/-- Errors raised by the conversion script, one constructor per Python
exception site: the TypeError for an unrecognized layer class, the
ValueError produced by tuple unpacking when the retrieved weight list has
the wrong length, the numpy AxisError raised by np.transpose when the axes
tuple does not match the array rank, the Keras ValueError for an unknown
layer name, and the load_state_dict strict-mode RuntimeError. -/
inductive ConvError where
  | unsupportedLayerType (typeName : String)
  | unpackMismatch (expected got : Nat)
  | axisMismatch (axesLen rank : Nat)
  | layerNotFound (layerName : String)
  | loadMismatch
deriving DecidableEq

/-- Embedding of the helper at scripts/convert_verify_net.py line 17,
torch.from_numpy(np.transpose(kernel, (3, 2, 0, 1))).  With axes
(3, 2, 0, 1), np.transpose requires a rank-4 array (otherwise it raises
AxisError) and the result satisfies new.shape[k] = old.shape[axes[k]] and
new[i0, i1, i2, i3] = old[j] with j[axes[k]] = i[k], i.e. j = [i2, i3, i1, i0]. -/
def _transpose_conv (kernel : Tensor) : Except ConvError Tensor :=
  match kernel.shape with
  | [s0, s1, s2, s3] =>
      .ok { shape := [s3, s2, s0, s1]
            data := fun idx =>
              match idx with
              | [i0, i1, i2, i3] => kernel.data [i2, i3, i1, i0]
              | _ => 0 }
  | other => .error (.axisMismatch 4 other.length)

/-- Embedding of the helper at scripts/convert_verify_net.py line 21,
torch.from_numpy(kernel.T).  The numpy .T attribute reverses all axes of
an array of any rank and never raises; the embedding still lands in
Except because every Python call site may in principle raise. -/
def _transpose_dense (kernel : Tensor) : Except ConvError Tensor :=
  .ok { shape := kernel.shape.reverse
        data := fun idx => kernel.data idx.reverse }

/-- Embedding of np.transpose with axes (2, 3, 1, 0), the inverse
permutation of (3, 2, 0, 1): new.shape = [s2, s3, s1, s0] and
new[i0, i1, i2, i3] = old[j] with j[axes[k]] = i[k], i.e. j = [i3, i2, i0, i1].
This is the reverse permutation the specification composes with the
convolutional transform for the round-trip invariant. -/
def transposeConvInverse (t : Tensor) : Except ConvError Tensor :=
  match t.shape with
  | [s0, s1, s2, s3] =>
      .ok { shape := [s2, s3, s1, s0]
            data := fun idx =>
              match idx with
              | [i0, i1, i2, i3] => t.data [i3, i2, i0, i1]
              | _ => 0 }
  | other => .error (.axisMismatch 4 other.length)

/-- Composition of the convolutional transform with the reverse
permutation, the round trip of the specification. -/
def convRoundTrip (K : Tensor) : Except ConvError Tensor :=
  (_transpose_conv K).bind transposeConvInverse

end Fingerflow

namespace Fingerflow

/-- C3: for every rank-4 array K in source layout (height, width,
in_channels, out_channels), the convolutional transform is the pure axis
permutation into (out_channels, in_channels, height, width) with no value
modification, and composing it with the reverse permutation (axes
(2, 3, 1, 0)) reproduces K exactly: the round trip preserves the shape and
every entry. -/
theorem conv_kernel_round_trip (K : Tensor) (s0 s1 s2 s3 i0 i1 i2 i3 : Nat)
    (hshape : K.shape = [s0, s1, s2, s3]) :
    (_transpose_conv K).map Tensor.shape = .ok [s3, s2, s0, s1] ∧
    (_transpose_conv K).map (fun T => T.data [i3, i2, i0, i1]) =
      .ok (K.data [i0, i1, i2, i3]) ∧
    (convRoundTrip K).map Tensor.shape = .ok K.shape ∧
    (convRoundTrip K).map (fun R => R.data [i0, i1, i2, i3]) =
      .ok (K.data [i0, i1, i2, i3]) := by
  simp [convRoundTrip, _transpose_conv, transposeConvInverse, hshape, Except.map, Except.bind]

/-- Concrete rank-4 kernel used to witness the round-trip theorem. -/
def kernelSample : Tensor :=
  { shape := [1, 2, 3, 4]
    data := fun idx => ((idx.foldl (fun a b => 10 * a + b) 0 : Nat) : ℚ) }

/-- Witness for C3 at the concrete kernel kernelSample and index (0, 1, 2, 3). -/
theorem conv_kernel_round_trip_witness :
    (_transpose_conv kernelSample).map Tensor.shape = .ok [4, 3, 1, 2] ∧
    (_transpose_conv kernelSample).map (fun T => T.data [3, 2, 0, 1]) =
      .ok (kernelSample.data [0, 1, 2, 3]) ∧
    (convRoundTrip kernelSample).map Tensor.shape = .ok kernelSample.shape ∧
    (convRoundTrip kernelSample).map (fun R => R.data [0, 1, 2, 3]) =
      .ok (kernelSample.data [0, 1, 2, 3]) :=
  conv_kernel_round_trip kernelSample 1 2 3 4 0 1 2 3 rfl

/-- Concrete rank-1 array (shape [3]): a wrong-rank input for both the
convolutional transform (expects rank 4) and the dense transform (expects
rank 2). -/
def rankOneSample : Tensor :=
  { shape := [3], data := fun idx => ((idx.headD 0 : Nat) : ℚ) }

/-- Counterexample for C4: the dense transform, applied to the rank-1 array
rankOneSample (rank 1 is not the expected rank 2), does not raise — it
succeeds, silently returning the axis-reversed tensor, because the source
implements it with the numpy .T attribute which accepts any rank. -/
theorem dense_transform_no_rank_check :
    rankOneSample.shape.length ≠ 2 ∧
    (_transpose_dense rankOneSample).isOk = true := by
  exact ⟨by decide, rfl⟩

/-- C4 amended: the convolutional transform does raise a shape-mismatch
(axis) error on every input whose rank is not 4, but the dense transform
never raises: on every input, of any rank, it silently returns the tensor
with all axes reversed (for rank 2 that is the intended transpose; for any
other rank it is a re-permuted wrong-rank tensor). -/
theorem transform_rank_checking (t u : Tensor) (h : t.shape.length ≠ 4) :
    _transpose_conv t = .error (.axisMismatch 4 t.shape.length) ∧
    _transpose_dense u =
      .ok { shape := u.shape.reverse, data := fun idx => u.data idx.reverse } := by
  refine ⟨?_, rfl⟩
  rcases ht : t.shape with _ | ⟨a, _ | ⟨b, _ | ⟨c, _ | ⟨d, tl⟩⟩⟩⟩ <;>
    simp [_transpose_conv, ht] at h ⊢
  cases tl with
  | nil => simp at h
  | cons e tl2 => simp

/-- Witness for C4 amended at the rank-1 array rankOneSample. -/
theorem transform_rank_checking_witness :
    rankOneSample.shape.length ≠ 4 ∧
    (_transpose_conv rankOneSample = .error (.axisMismatch 4 rankOneSample.shape.length) ∧
     _transpose_dense rankOneSample =
       .ok { shape := rankOneSample.shape.reverse,
             data := fun idx => rankOneSample.data idx.reverse }) :=
  ⟨by decide, transform_rank_checking rankOneSample rankOneSample (by decide)⟩

/-- Kind of a Keras layer as discriminated by the converter's isinstance
dispatch: tf.keras.layers.Conv2D, Dense, BatchNormalization, or any other
layer class (identified by its type name, which is what the script's
TypeError message reports). -/
inductive TFLayerKind where
  | conv2d
  | dense
  | batchNormalization
  | other (typeName : String)
deriving DecidableEq

/-- Embedding of a Keras layer as the converter observes it: its name
inside the model, its class, and the list layer.get_weights() returns. -/
structure TFLayer where
  name : String
  kind : TFLayerKind
  weights : List Tensor

/-- Embedding of the TensorFlow model: its layers in order. -/
structure TFModel where
  layers : List TFLayer

/-- Embedding of tf_model.get_layer(name): returns the layer with the given
name or raises a ValueError when no layer has that name. -/
def getLayer (m : TFModel) (layerName : String) : Except ConvError TFLayer :=
  match m.layers.find? (fun l => l.name == layerName) with
  | some l => .ok l
  | none => .error (.layerNotFound layerName)

/-- A PyTorch state dict: an insertion-ordered mapping from parameter name
to tensor, embedded as an association list with unique keys. -/
abbrev StateDict := List (String × Tensor)

/-- Python dict assignment d[k] = v: replaces the value of an existing key
in place, otherwise appends the new key at the end. -/
def dictInsert : StateDict → String → Tensor → StateDict
  | [], k, v => [(k, v)]
  | (k0, v0) :: rest, k, v =>
      if k0 == k then (k, v) :: rest else (k0, v0) :: dictInsert rest k v

/-- Embedding of the destination PyTorch model as the converter observes
it: its parameter dictionary.  torch_model.state_dict() is read as the
params field; loading a state dict replaces it. -/
structure TorchModel where
  params : StateDict

/-- One iteration body of the conversion loop in convert_verify_net
(scripts/convert_verify_net.py lines 39-59), after get_layer succeeded:
skip the layer when get_weights() is empty; otherwise dispatch on the
layer class.  Conv2D and Dense unpack exactly two tensors (a weight list
of any other length raises the tuple-unpacking ValueError with the
expected and actual counts), transform the kernel and copy the bias; a
BatchNormalization layer unpacks exactly four tensors and copies all four
verbatim; any other layer class raises the TypeError naming that class.
Returns the (name, tensor) pairs the iteration assigns into the state dict. -/
def convertLayerEntries (torchName : String) (layer : TFLayer) :
    Except ConvError (List (String × Tensor)) :=
  if layer.weights.isEmpty then .ok []
  else
    match layer.kind with
    | .conv2d =>
        match layer.weights with
        | [w, b] =>
            (_transpose_conv w).map fun t =>
              [(torchName ++ ".weight", t), (torchName ++ ".bias", b)]
        | ws => .error (.unpackMismatch 2 ws.length)
    | .dense =>
        match layer.weights with
        | [w, b] =>
            (_transpose_dense w).map fun t =>
              [(torchName ++ ".weight", t), (torchName ++ ".bias", b)]
        | ws => .error (.unpackMismatch 2 ws.length)
    | .batchNormalization =>
        match layer.weights with
        | [gamma, beta, mean, variance] =>
            .ok [(torchName ++ ".weight", gamma), (torchName ++ ".bias", beta),
                 (torchName ++ ".running_mean", mean),
                 (torchName ++ ".running_var", variance)]
        | ws => .error (.unpackMismatch 4 ws.length)
    | .other typeName => .error (.unsupportedLayerType typeName)

/-- Static layer mapping of convert_verify_net: destination parameter
prefix to source layer name, in the dict's insertion order. -/
def layer_map : List (String × String) :=
  [("embedding.features.0", "siamese_matcher/embedding_network/conv2d"),
   ("embedding.features.3", "siamese_matcher/embedding_network/conv2d_1"),
   ("embedding.dense.0", "siamese_matcher/embedding_network/dense"),
   ("bn", "batch_normalization"),
   ("fc", "dense_1")]

/-- The conversion loop: for each mapped pair, fetch the source layer,
convert it, and assign the resulting entries into the accumulating state
dict; the first raised exception aborts the whole loop. -/
def convertLoop (tfModel : TFModel) :
    List (String × String) → StateDict → Except ConvError StateDict
  | [], sd => .ok sd
  | (torchName, tfName) :: rest, sd => do
      let layer ← getLayer tfModel tfName
      let entries ← convertLayerEntries torchName layer
      convertLoop tfModel rest (entries.foldl (fun d e => dictInsert d e.1 e.2) sd)

/-- Predicate for load_state_dict strict mode: every destination parameter
finds in the provided dict a tensor of its own shape. -/
def shapesMatch (modelParams sd : StateDict) : Bool :=
  modelParams.all fun p =>
    match sd.find? (fun q => q.1 == p.1) with
    | some q => q.2.shape == p.2.shape
    | none => false

/-- Embedding of torch_model.load_state_dict(state_dict) in strict mode:
when the key sets and the per-key shapes agree, the model's parameters
become the provided dict; otherwise an error is raised. -/
def load_state_dict (m : TorchModel) (sd : StateDict) : Except ConvError TorchModel :=
  if sd.map Prod.fst == m.params.map Prod.fst && shapesMatch m.params sd
  then .ok ⟨sd⟩ else .error .loadMismatch

/-- Embedding of convert_verify_net (scripts/convert_verify_net.py lines
25-62), with model construction and file IO abstracted into the two model
arguments: the state dict is initialized from the destination model, the
loop accumulates converted tensors into it, and only after every mapped
layer has been processed is the dict committed via load_state_dict. -/
def convert_verify_net (tfModel : TFModel) (torchModel : TorchModel) :
    Except ConvError TorchModel := do
  let sd ← convertLoop tfModel layer_map torchModel.params
  load_state_dict torchModel sd

/-- Run semantics of the script around the destination model: a Python
exception propagates out of convert_verify_net before load_state_dict
runs, so the caller's destination model keeps its pre-conversion
parameters; on success it holds the committed dictionary. -/
def convertRun (tfModel : TFModel) (torchModel : TorchModel) : TorchModel :=
  match convert_verify_net tfModel torchModel with
  | .ok m => m
  | .error _ => torchModel

/-- C1: conversion atomicity.  The converted tensors are accumulated in the
state dict and committed only by the final load_state_dict; whenever any
mapped layer raises during the loop, convert_verify_net propagates that
error and the destination model's parameters remain exactly their
pre-conversion values. -/
theorem convert_atomic (tfModel : TFModel) (dest : TorchModel) (e : ConvError)
    (h : convertLoop tfModel layer_map dest.params = .error e) :
    convert_verify_net tfModel dest = .error e ∧ convertRun tfModel dest = dest := by
  have h1 : convert_verify_net tfModel dest = .error e := by
    unfold convert_verify_net
    rw [h]
    rfl
  exact ⟨h1, by simp [convertRun, h1]⟩

/-- Source model whose first mapped layer is an unsupported Lambda layer
carrying one weight tensor: the conversion loop raises on it. -/
def tfModelBad : TFModel :=
  ⟨[{ name := "siamese_matcher/embedding_network/conv2d",
      kind := .other "Lambda", weights := [rankOneSample] }]⟩

/-- Destination model used to witness conversion atomicity. -/
def destSample : TorchModel := ⟨[("fc.weight", rankOneSample)]⟩

/-- Witness for C1: converting tfModelBad raises the unsupported-layer
TypeError and leaves destSample exactly as it was. -/
theorem convert_atomic_witness :
    convertLoop tfModelBad layer_map destSample.params =
      .error (.unsupportedLayerType "Lambda") ∧
    (convert_verify_net tfModelBad destSample = .error (.unsupportedLayerType "Lambda") ∧
     convertRun tfModelBad destSample = destSample) :=
  ⟨rfl, convert_atomic tfModelBad destSample (.unsupportedLayerType "Lambda") rfl⟩

/-- Source layer of Dense class whose weight list holds three tensors
instead of the expected two. -/
def overfullDense : TFLayer :=
  { name := "dense_1", kind := .dense,
    weights := [rankOneSample, rankOneSample, rankOneSample] }

/-- Counterexample for C5: a Dense layer whose retrieved tensor count is 3
instead of 2 makes the converter raise the tuple-unpacking ValueError
(expected 2, got 3) — not a descriptive unsupported-layer error, and the
raised error does not name the offending layer. -/
theorem unsupported_layer_error_cex :
    overfullDense.weights.length = 3 ∧
    convertLayerEntries "fc" overfullDense = .error (.unpackMismatch 2 3) ∧
    ConvError.unpackMismatch 2 3 ≠ ConvError.unsupportedLayerType overfullDense.name :=
  ⟨rfl, rfl, by decide⟩

/-- C5 amended: for a mapped layer with a nonempty weight list, an
unrecognized layer class raises the TypeError naming the layer's class
(not the layer itself), while a tensor-count mismatch for a recognized
class (2 for Conv2D and Dense, 4 for BatchNormalization) raises the
generic tuple-unpacking ValueError reporting expected and actual counts,
which names neither the layer nor its class. -/
theorem unsupported_layer_amended (torchName typeName : String) (layer : TFLayer)
    (hne : layer.weights ≠ []) :
    (layer.kind = .other typeName →
        convertLayerEntries torchName layer = .error (.unsupportedLayerType typeName)) ∧
    ((layer.kind = .conv2d ∨ layer.kind = .dense) → layer.weights.length ≠ 2 →
        convertLayerEntries torchName layer =
          .error (.unpackMismatch 2 layer.weights.length)) ∧
    (layer.kind = .batchNormalization → layer.weights.length ≠ 4 →
        convertLayerEntries torchName layer =
          .error (.unpackMismatch 4 layer.weights.length)) := by
  refine ⟨?_, ?_, ?_⟩
  · intro hk
    rcases hw : layer.weights with _ | ⟨w, tl⟩
    · exact absurd hw hne
    · simp [convertLayerEntries, hk, hw]
  · intro hk hlen
    rcases hw : layer.weights with _ | ⟨w, _ | ⟨b, _ | ⟨c, tl⟩⟩⟩
    · exact absurd hw hne
    · rcases hk with hk | hk <;> simp [convertLayerEntries, hk, hw]
    · rw [hw] at hlen; simp at hlen
    · rcases hk with hk | hk <;> simp [convertLayerEntries, hk, hw]
  · intro hk hlen
    rcases hw : layer.weights with _ | ⟨w, _ | ⟨b, _ | ⟨c, _ | ⟨d, _ | ⟨f, tl⟩⟩⟩⟩⟩
    · exact absurd hw hne
    · simp [convertLayerEntries, hk, hw]
    · simp [convertLayerEntries, hk, hw]
    · simp [convertLayerEntries, hk, hw]
    · rw [hw] at hlen; simp at hlen
    · simp [convertLayerEntries, hk, hw]

/-- Witness for C5 amended at the three-tensor Dense layer overfullDense. -/
theorem unsupported_layer_amended_witness :
    overfullDense.weights ≠ [] ∧
    ((overfullDense.kind = .other "Lambda" →
        convertLayerEntries "fc" overfullDense = .error (.unsupportedLayerType "Lambda")) ∧
     ((overfullDense.kind = .conv2d ∨ overfullDense.kind = .dense) →
        overfullDense.weights.length ≠ 2 →
        convertLayerEntries "fc" overfullDense =
          .error (.unpackMismatch 2 overfullDense.weights.length)) ∧
     (overfullDense.kind = .batchNormalization → overfullDense.weights.length ≠ 4 →
        convertLayerEntries "fc" overfullDense =
          .error (.unpackMismatch 4 overfullDense.weights.length))) :=
  ⟨List.cons_ne_nil _ _,
   unsupported_layer_amended "fc" "Lambda" overfullDense (List.cons_ne_nil _ _)⟩

/-- Scale tensor carrying an extraneous singleton dimension: shape (1, 2). -/
def rank2Gamma : Tensor := ⟨[1, 2], fun idx => ((idx.getD 1 0 : Nat) : ℚ)⟩

/-- Rank-1 normalization statistic of shape (2). -/
def rank1Stat : Tensor := ⟨[2], fun _ => 1⟩

/-- BatchNormalization layer whose scale tensor has shape (1, 2). -/
def squeezedNorm : TFLayer :=
  { name := "batch_normalization", kind := .batchNormalization,
    weights := [rank2Gamma, rank1Stat, rank1Stat, rank1Stat] }

/-- Counterexample for C6: for a normalization layer whose scale tensor
carries an extraneous singleton dimension (shape (1, 2)), the converter
commits that tensor unchanged — still rank 2 — so the destination does not
receive a rank-1 parameter; no reshape to rank 1 is performed. -/
theorem norm_reshape_cex :
    convertLayerEntries "bn" squeezedNorm =
      .ok [("bn.weight", rank2Gamma), ("bn.bias", rank1Stat),
           ("bn.running_mean", rank1Stat), ("bn.running_var", rank1Stat)] ∧
    rank2Gamma.shape = [1, 2] ∧ rank2Gamma.shape.length ≠ 1 :=
  ⟨rfl, rfl, by decide⟩

/-- C6 amended: for every normalization layer converted, the four tensors
(scale, shift, running_mean, running_variance) are copied into the state
dict without any axis transform and without any reshape — each destination
tensor is exactly the source tensor, so it is rank-1 exactly when the
source tensor already is.  (Only the parity-test harness, separately,
reshapes its normalization weights to rank 1.) -/
theorem norm_stats_copied_verbatim (torchName : String) (layer : TFLayer)
    (gamma beta mean variance : Tensor)
    (hk : layer.kind = .batchNormalization)
    (hw : layer.weights = [gamma, beta, mean, variance]) :
    convertLayerEntries torchName layer =
      .ok [(torchName ++ ".weight", gamma), (torchName ++ ".bias", beta),
           (torchName ++ ".running_mean", mean),
           (torchName ++ ".running_var", variance)] := by
  simp [convertLayerEntries, hk, hw]

/-- Witness for C6 amended at the layer squeezedNorm. -/
theorem norm_stats_copied_verbatim_witness :
    squeezedNorm.kind = .batchNormalization ∧
    squeezedNorm.weights = [rank2Gamma, rank1Stat, rank1Stat, rank1Stat] ∧
    convertLayerEntries "bn" squeezedNorm =
      .ok [("bn.weight", rank2Gamma), ("bn.bias", rank1Stat),
           ("bn.running_mean", rank1Stat), ("bn.running_var", rank1Stat)] :=
  ⟨rfl, rfl,
   norm_stats_copied_verbatim "bn" squeezedNorm rank2Gamma rank1Stat rank1Stat rank1Stat
     rfl rfl⟩

/-- Declarative content of one torch.onnx.export call: the declared input
names, output names, and the dynamic-axes table mapping a declared name to
the list of its axes marked dynamic. -/
structure OnnxExportCall where
  input_names : List String
  output_names : List String
  dynamic_axes : List (String × List Nat)

/-- Embedding of the export call in export_extractor
(src/fingerflow_torch/export.py lines 16-26). -/
def export_extractor_call : OnnxExportCall :=
  { input_names := ["image"],
    output_names := ["boxes", "object", "classes", "pred_wh"],
    dynamic_axes := [("image", [0]), ("boxes", [0]), ("object", [0])] }

/-- Embedding of the export call in export_matcher
(src/fingerflow_torch/export.py lines 29-39). -/
def export_matcher_call : OnnxExportCall :=
  { input_names := ["anchor", "sample"],
    output_names := ["score"],
    dynamic_axes := [("anchor", [0]), ("sample", [0]), ("score", [0])] }

/-- Whether the export call declares axis 0 (the batch axis) dynamic for
the given input or output name. -/
def declaresBatchDynamic (c : OnnxExportCall) (declName : String) : Bool :=
  match c.dynamic_axes.find? (fun p => p.1 == declName) with
  | some p => p.2.contains 0
  | none => false

/-- Whether every declared input and output of the export call has its
batch axis marked dynamic. -/
def allBatchAxesDynamic (c : OnnxExportCall) : Bool :=
  (c.input_names ++ c.output_names).all (declaresBatchDynamic c)

/-- Counterexample for C7: the extractor export declares the output
"classes" (and also "pred_wh") without any dynamic axis, so not every
declared output of every export has a dynamic batch axis. -/
theorem export_batch_axis_cex :
    "classes" ∈ export_extractor_call.output_names ∧
    declaresBatchDynamic export_extractor_call "classes" = false ∧
    allBatchAxesDynamic export_extractor_call = false := by
  refine ⟨?_, rfl, rfl⟩
  simp [export_extractor_call]

/-- C7 amended: the matcher export declares the batch axis dynamic on every
declared input and output, but the extractor export declares it only on
its input "image" and on the outputs "boxes" and "object" — the outputs
"classes" and "pred_wh" carry no dynamic-axis declaration. -/
theorem export_batch_axis_amended :
    allBatchAxesDynamic export_matcher_call = true ∧
    declaresBatchDynamic export_extractor_call "image" = true ∧
    declaresBatchDynamic export_extractor_call "boxes" = true ∧
    declaresBatchDynamic export_extractor_call "object" = true ∧
    declaresBatchDynamic export_extractor_call "classes" = false ∧
    declaresBatchDynamic export_extractor_call "pred_wh" = false :=
  ⟨rfl, rfl, rfl, rfl, rfl, rfl⟩

/-- Python string, embedded as its list of Unicode code points. -/
abbrev PyStr := List Nat

/-- Lowercasing of one code point as Python str.lower() acts on the ASCII
letters used for backend names: an upper-case letter (code 65-90) moves
down by 32, every other code point is unchanged. -/
def lowerCode (c : Nat) : Nat := if 65 ≤ c ∧ c ≤ 90 then c + 32 else c

/-- Embedding of name.lower() for backend names. -/
def pyLower (s : PyStr) : PyStr := s.map lowerCode

/-- Container describing the concrete backend implementations, the Backend
dataclass of src/fingerflow/__init__.py; the two classes are embedded as
opaque class names. -/
structure Backend where
  extractor_cls : String
  matcher_cls : String
deriving DecidableEq

/-- Errors raised by the registry helpers: the ValueError for a duplicate
registration without overwrite, and the ValueError for an unknown backend
name (raised by both get_backend and unregister_backend). -/
inductive RegError where
  | alreadyRegistered (backendName : PyStr)
  | unknownBackend (backendName : PyStr)
deriving DecidableEq

/-- The module-level \_BACKENDS dict: an insertion-ordered mapping from
name key to Backend, embedded as an association list with unique keys. -/
abbrev Registry := List (PyStr × Backend)

/-- Python membership test key in d. -/
def containsKey (reg : Registry) (k : PyStr) : Bool := reg.any fun p => p.1 == k

/-- Python dict assignment d[k] = v on the registry: replaces the value of
an existing key in place, otherwise appends the new key at the end. -/
def regInsert : Registry → PyStr → Backend → Registry
  | [], k, v => [(k, v)]
  | (k0, v0) :: rest, k, v =>
      if k0 == k then (k, v) :: rest else (k0, v0) :: regInsert rest k v

/-- Embedding of fingerflow.register_backend (src/fingerflow/__init__.py
lines 73-106), with the issubclass type checks abstracted away: the key is
name.lower(); without overwrite an existing key raises ValueError,
otherwise the backend is stored under the key. -/
def register_backend (reg : Registry) (backendName : PyStr) (b : Backend)
    (overwrite : Bool) : Except RegError Registry :=
  let key := pyLower backendName
  if !overwrite && containsKey reg key then .error (.alreadyRegistered backendName)
  else .ok (regInsert reg key b)

/-- Embedding of fingerflow.unregister_backend: del of the lowered key,
with the KeyError for a missing key re-raised as ValueError. -/
def unregister_backend (reg : Registry) (backendName : PyStr) :
    Except RegError Registry :=
  let key := pyLower backendName
  if containsKey reg key then .ok (reg.eraseP fun p => p.1 == key)
  else .error (.unknownBackend backendName)

/-- Embedding of fingerflow.get_backend for an explicitly supplied name
(the environment-variable default path is omitted): lookup of the lowered
key, raising ValueError when it is absent. -/
def get_backend (reg : Registry) (backendName : PyStr) : Except RegError Backend :=
  match reg.find? (fun p => p.1 == pyLower backendName) with
  | some p => .ok p.2
  | none => .error (.unknownBackend backendName)

/-- Embedding of fingerflow.available_backends: the registry's keys sorted
alphabetically (lexicographically by code point, as Python sorted does on
strings). -/
def available_backends (reg : Registry) : List PyStr :=
  List.insertionSort (· ≤ ·) (reg.map Prod.fst)

/-- Run semantics of register_backend around the module-level dict: a
raised ValueError leaves the dict unchanged. -/
def registerRun (reg : Registry) (backendName : PyStr) (b : Backend)
    (overwrite : Bool) : Registry :=
  match register_backend reg backendName b overwrite with
  | .ok r => r
  | .error _ => reg

/-- Run semantics of unregister_backend around the module-level dict. -/
def unregisterRun (reg : Registry) (backendName : PyStr) : Registry :=
  match unregister_backend reg backendName with
  | .ok r => r
  | .error _ => reg

/-- Code points of the initial key "tensorflow". -/
def strTensorflow : PyStr := [116, 101, 110, 115, 111, 114, 102, 108, 111, 119]

/-- Code points of the initial key "pytorch". -/
def strPytorch : PyStr := [112, 121, 116, 111, 114, 99, 104]

/-- Initial population of the registry (src/fingerflow/__init__.py lines
21-36) in the configuration where both optional imports succeed. -/
def initBackends : Registry :=
  [(strTensorflow, ⟨"Extractor", "Matcher"⟩),
   (strPytorch, ⟨"TorchExtractor", "TorchMatcher"⟩)]

/-- The implicit registry invariant: every stored key is a lowercase
string, i.e. fixed by pyLower. -/
def allLowerKeys (reg : Registry) : Bool := reg.all fun p => pyLower p.1 == p.1

theorem lowerCode_idem (c : Nat) : lowerCode (lowerCode c) = lowerCode c := by
  unfold lowerCode
  by_cases h : 65 ≤ c ∧ c ≤ 90
  · rw [if_pos h, if_neg (by omega)]
  · rw [if_neg h, if_neg h]

theorem pyLower_idem (s : PyStr) : pyLower (pyLower s) = pyLower s := by
  simp only [pyLower, List.map_map]
  exact List.map_congr_left fun c _ => lowerCode_idem c

theorem find?_regInsert_self (reg : Registry) (k : PyStr) (b : Backend) :
    (regInsert reg k b).find? (fun p => p.1 == k) = some (k, b) := by
  induction reg with
  | nil => simp [regInsert]
  | cons hd tl ih =>
      rcases hd with ⟨k0, v0⟩
      by_cases h : k0 == k
      · simp [regInsert, h]
      · simp only [regInsert, h, if_false, Bool.false_eq_true]
        rw [List.find?_cons_of_neg _ (by simpa using h)]
        exact ih

theorem containsKey_false_find? (reg : Registry) (k : PyStr)
    (h : containsKey reg k = false) :
    reg.find? (fun p => p.1 == k) = none := by
  rw [List.find?_eq_none]
  intro p hp hpk
  rcases p with ⟨a, b⟩
  simp [containsKey] at h
  exact h a b hp (by simpa using hpk)

theorem allLowerKeys_subset (reg reg2 : Registry) (hsub : reg2 ⊆ reg)
    (h : allLowerKeys reg = true) : allLowerKeys reg2 = true := by
  simp only [allLowerKeys, List.all_eq_true] at h ⊢
  exact fun p hp => h p (hsub hp)

theorem allLowerKeys_regInsert (reg : Registry) (k : PyStr) (b : Backend)
    (hreg : allLowerKeys reg = true) (hk : pyLower k = k) :
    allLowerKeys (regInsert reg k b) = true := by
  induction reg with
  | nil => simp [regInsert, allLowerKeys, hk]
  | cons hd tl ih =>
      rcases hd with ⟨k0, v0⟩
      simp only [allLowerKeys, List.all_cons, Bool.and_eq_true] at hreg
      by_cases h : k0 == k
      · simp only [regInsert, h, if_true]
        simp [allLowerKeys, hk, hreg.2]
      · simp only [regInsert, h, if_false, Bool.false_eq_true]
        simp only [allLowerKeys, List.all_cons, Bool.and_eq_true]
        exact ⟨hreg.1, ih hreg.2⟩

/-- C8: registry duplicate-registration and lookup contract.  For a name
whose lowered key is already registered, register_backend without
overwrite raises ValueError and leaves the registry unchanged; with
overwrite it replaces the entry, after which get_backend retrieves the new
backend under any capitalization of the name; get_backend raises for an
unregistered name and unregister_backend of an unknown name raises. -/
theorem registry_contract (reg : Registry) (nameA other unknown : PyStr) (b : Backend)
    (hreg : containsKey reg (pyLower nameA) = true)
    (hcase : pyLower other = pyLower nameA)
    (hmiss : containsKey reg (pyLower unknown) = false) :
    register_backend reg nameA b false = .error (.alreadyRegistered nameA) ∧
    registerRun reg nameA b false = reg ∧
    register_backend reg nameA b true = .ok (regInsert reg (pyLower nameA) b) ∧
    get_backend (regInsert reg (pyLower nameA) b) other = .ok b ∧
    get_backend reg unknown = .error (.unknownBackend unknown) ∧
    unregister_backend reg unknown = .error (.unknownBackend unknown) := by
  refine ⟨?_, ?_, ?_, ?_, ?_, ?_⟩
  · simp [register_backend, hreg]
  · simp [registerRun, register_backend, hreg]
  · simp [register_backend]
  · simp [get_backend, hcase, find?_regInsert_self]
  · simp [get_backend, containsKey_false_find? reg (pyLower unknown) hmiss]
  · simp [unregister_backend, hmiss]

/-- Code points of "dummy". -/
def strDummy : PyStr := [100, 117, 109, 109, 121]

/-- Code points of "DUMMY". -/
def strDummyUpper : PyStr := [68, 85, 77, 77, 89]

/-- Code points of "Dummy". -/
def strDummyMixed : PyStr := [68, 117, 109, 109, 121]

/-- Code points of "nope", a name never registered. -/
def strNope : PyStr := [110, 111, 112, 101]

/-- Backend value used in the registry witnesses. -/
def dummyBackend : Backend := ⟨"_DummyExtractor", "_DummyMatcher"⟩

/-- Registry holding only the key "dummy". -/
def dummyRegistry : Registry := [(strDummy, dummyBackend)]

/-- Witness for C8 on the registry holding "dummy", re-registering under
"DUMMY", retrieving under "Dummy", and probing the unknown name "nope". -/
theorem registry_contract_witness :
    (containsKey dummyRegistry (pyLower strDummyUpper) = true ∧
     pyLower strDummyMixed = pyLower strDummyUpper ∧
     containsKey dummyRegistry (pyLower strNope) = false) ∧
    (register_backend dummyRegistry strDummyUpper dummyBackend false =
        .error (.alreadyRegistered strDummyUpper) ∧
     registerRun dummyRegistry strDummyUpper dummyBackend false = dummyRegistry ∧
     register_backend dummyRegistry strDummyUpper dummyBackend true =
        .ok (regInsert dummyRegistry (pyLower strDummyUpper) dummyBackend) ∧
     get_backend (regInsert dummyRegistry (pyLower strDummyUpper) dummyBackend)
        strDummyMixed = .ok dummyBackend ∧
     get_backend dummyRegistry strNope = .error (.unknownBackend strNope) ∧
     unregister_backend dummyRegistry strNope = .error (.unknownBackend strNope)) :=
  ⟨⟨by decide, by decide, by decide⟩,
   registry_contract dummyRegistry strDummyUpper strDummyMixed strNope dummyBackend
     (by decide) (by decide) (by decide)⟩

/-- C9: the implicit lowercase-key invariant.  Every key of the initial
registry is lowercase; the run semantics of register_backend and
unregister_backend preserve the invariant; available_backends always
returns an alphabetically sorted list whose entries, under the invariant,
are all lowercase; and the three name-taking operations behave the same
for any two capitalizations of the same name: identical success or
failure, identical resulting registry, and identical retrieved backend
(only the name echoed inside a raised error message differs). -/
theorem registry_lowercase_invariant (reg : Registry) (nameA nameB : PyStr)
    (b : Backend) (ow : Bool)
    (hinv : allLowerKeys reg = true)
    (hcase : pyLower nameA = pyLower nameB) :
    allLowerKeys initBackends = true ∧
    allLowerKeys (registerRun reg nameA b ow) = true ∧
    allLowerKeys (unregisterRun reg nameA) = true ∧
    List.Sorted (· ≤ ·) (available_backends reg) ∧
    (available_backends reg).all (fun k => pyLower k == k) = true ∧
    (register_backend reg nameA b ow).isOk = (register_backend reg nameB b ow).isOk ∧
    registerRun reg nameA b ow = registerRun reg nameB b ow ∧
    (unregister_backend reg nameA).isOk = (unregister_backend reg nameB).isOk ∧
    unregisterRun reg nameA = unregisterRun reg nameB ∧
    (get_backend reg nameA).toOption = (get_backend reg nameB).toOption := by
  refine ⟨by decide, ?_, ?_, ?_, ?_, ?_, ?_, ?_, ?_, ?_⟩
  · by_cases hcond : (!ow && containsKey reg (pyLower nameA)) = true
    · simpa [registerRun, register_backend, hcond] using hinv
    · simp only [registerRun, register_backend, hcond, Bool.false_eq_true, if_false]
      exact allLowerKeys_regInsert reg (pyLower nameA) b hinv (pyLower_idem nameA)
  · by_cases hcond : containsKey reg (pyLower nameA) = true
    · simp only [unregisterRun, unregister_backend, hcond, if_true]
      exact allLowerKeys_subset reg _ (List.eraseP_sublist reg).subset hinv
    · simpa [unregisterRun, unregister_backend, hcond] using hinv
  · exact List.sorted_insertionSort (· ≤ ·) (reg.map Prod.fst)
  · simp only [List.all_eq_true]
    intro k hk
    have hmem : k ∈ reg.map Prod.fst :=
      (List.perm_insertionSort (· ≤ ·) (reg.map Prod.fst)).subset hk
    rcases List.mem_map.mp hmem with ⟨p, hp, hpk⟩
    simp only [allLowerKeys, List.all_eq_true] at hinv
    exact hpk ▸ hinv p hp
  · simp only [register_backend, hcase]
    by_cases hcond : (!ow && containsKey reg (pyLower nameB)) = true
    · rw [if_pos hcond, if_pos hcond]; rfl
    · rw [if_neg hcond, if_neg hcond]
  · simp only [registerRun, register_backend, hcase]
    by_cases hcond : (!ow && containsKey reg (pyLower nameB)) = true
    · rw [if_pos hcond, if_pos hcond]
    · rw [if_neg hcond, if_neg hcond]
  · simp only [unregister_backend, hcase]
    by_cases hcond : containsKey reg (pyLower nameB) = true
    · rw [if_pos hcond, if_pos hcond]
    · rw [if_neg hcond, if_neg hcond]; rfl
  · simp only [unregisterRun, unregister_backend, hcase]
    by_cases hcond : containsKey reg (pyLower nameB) = true
    · rw [if_pos hcond, if_pos hcond]
    · rw [if_neg hcond, if_neg hcond]
  · cases hfind : reg.find? (fun p => p.1 == pyLower nameB) <;>
      simp [get_backend, hcase, hfind, Except.toOption]

/-- Code points of "PyTorch". -/
def strPytorchMixed : PyStr := [80, 121, 84, 111, 114, 99, 104]

/-- Code points of "PYTORCH". -/
def strPytorchUpper : PyStr := [80, 89, 84, 79, 82, 67, 72]

/-- Witness for C9 on the initial registry with the capitalizations
"PyTorch" and "PYTORCH" of the registered name "pytorch". -/
theorem registry_lowercase_invariant_witness :
    (allLowerKeys initBackends = true ∧
     pyLower strPytorchMixed = pyLower strPytorchUpper) ∧
    (allLowerKeys initBackends = true ∧
     allLowerKeys (registerRun initBackends strPytorchMixed dummyBackend false) = true ∧
     allLowerKeys (unregisterRun initBackends strPytorchMixed) = true ∧
     List.Sorted (· ≤ ·) (available_backends initBackends) ∧
     (available_backends initBackends).all (fun k => pyLower k == k) = true ∧
     (register_backend initBackends strPytorchMixed dummyBackend false).isOk =
       (register_backend initBackends strPytorchUpper dummyBackend false).isOk ∧
     registerRun initBackends strPytorchMixed dummyBackend false =
       registerRun initBackends strPytorchUpper dummyBackend false ∧
     (unregister_backend initBackends strPytorchMixed).isOk =
       (unregister_backend initBackends strPytorchUpper).isOk ∧
     unregisterRun initBackends strPytorchMixed =
       unregisterRun initBackends strPytorchUpper ∧
     (get_backend initBackends strPytorchMixed).toOption =
       (get_backend initBackends strPytorchUpper).toOption) :=
  ⟨⟨by decide, by decide⟩,
   registry_lowercase_invariant initBackends strPytorchMixed strPytorchUpper
     dummyBackend false (by decide) (by decide)⟩

/-- Embedding of VerifyNet.verify_fingerprints_batch
(src/fingerflow/matcher/verify_net.py lines 30-44), parametric in the pair
type and in the underlying model (the tf.function wrapping the Keras
model, together with per-pair preprocessing and batch concatenation).  The
result pairs the returned score list with the number of times the
underlying model was invoked: an empty pair list returns the empty list
immediately, any other list is concatenated into one batch and scored by a
single model invocation. -/
def verify_fingerprints_batch {α β : Type} (modelFn : List (α × α) → List β)
    (pairs : List (α × α)) : List β × Nat :=
  if pairs.isEmpty then ([], 0) else (modelFn pairs, 1)

/-- Embedding of TorchVerifyNet.batch
(src/fingerflow_torch/matcher/verify_net.py lines 86-92): the statement
anchors, samples = zip(*pairs) raises ValueError on an empty iterable
(zip() yields nothing to unpack into two names); otherwise the stacked
anchors and samples are scored by the underlying model. -/
def torch_batch {α β : Type} (modelFn : List α → List α → List β)
    (pairs : List (α × α)) : Except String (List β) :=
  match pairs with
  | [] => .error "not enough values to unpack (expected 2, got 0)"
  | _ => .ok (modelFn (pairs.map Prod.fst) (pairs.map Prod.snd))

/-- C10: on the empty input sequence the TensorFlow matcher's batched
entry point returns an empty list with zero invocations of the underlying
model, whereas the PyTorch matcher's batch method raises instead of
returning an empty result — the two backends disagree on the empty-input
edge case. -/
theorem empty_batch_divergence {α β : Type} (tfFn : List (α × α) → List β)
    (torchFn : List α → List α → List β) :
    verify_fingerprints_batch tfFn ([] : List (α × α)) = ([], 0) ∧
    (torch_batch torchFn ([] : List (α × α))).isOk = false :=
  ⟨rfl, rfl⟩

end Fingerflow
